import Mathlib

/-
Verification development for the ALM_modeler risk engine.

The Python source is shallowly embedded: calendar dates are day numbers
(`Int`), numeric quantities are exact rationals (`ℚ`), and Python `dict`s
are insertion-ordered association lists.  Python truthiness on optional
numeric fields (`if self.core_portion:`) is modelled by `truthyQ`.
Fallible code is modelled with `Option`: `_determine_customer_segment`
raises `AttributeError` when `counterparty_type` is `None`
(`None.lower()`), so it and `_calculate_single_deposit_change` return
`Option` values, `none` on that error path.

Only functions whose arithmetic the source completes are embedded.
Several paths of the source mix `float` with `Decimal` and raise
`TypeError` before producing any value: the dv01 lines and the
cash-flow folds of `loan.py` and `deposit.py`, the withdrawal loop of
`Deposit._generate_cash_flows`, the `Decimal(0)`-initialized accumulators
of `ScenarioCalculator._aggregate_risks`, and
`DynamicBalanceIRRCalculator.calculate_dynamic_irr`, which always passes
a `book_filter` keyword that `calculate()` does not accept.  The claims
that depend on those paths are settled as code bugs against the spec,
not by theorems, and those functions are not embedded.
-/
namespace ALM

/-- Association-list lookup, modelling `d.get(k)` on an insertion-ordered
Python dict: the first matching key wins. -/
def alookup {κ α : Type} [DecidableEq κ] : List (κ × α) → κ → Option α
  | [], _ => none
  | (k1, v) :: rest, k => if k1 = k then some v else alookup rest k

/-- Python truthiness of an optional number: `None` and `0.0` are falsy. -/
def truthyQ : Option ℚ → Bool
  | none => false
  | some q => decide (q ≠ 0)

/-- First-occurrence deduplication, modelling `pandas.Series.unique()` on a
column (and Python set-like iteration that preserves first encounters). -/
def pyUnique (l : List String) : List String :=
  l.foldl (fun acc s => if s ∈ acc then acc else acc ++ [s]) []

/-- Embedding of `utils/date_utils.assign_to_bucket`.  The `buckets`
argument is accepted and ignored, exactly as in the source. -/
def assign_to_bucket (base_date target_date : Int) (_buckets : List String) :
    String :=
  let days_diff := target_date - base_date
  if days_diff ≤ 0 then "overnight"
  else if days_diff ≤ 30 then "0-30d"
  else if days_diff ≤ 90 then "30-90d"
  else if days_diff ≤ 180 then "90-180d"
  else if days_diff ≤ 365 then "180-365d"
  else if days_diff ≤ 730 then "1-2y"
  else "2y+"

/-- The duck-typed instrument record: the common `BaseInstrument`
attributes together with the `Loan`, `Deposit` and off-balance fields that
the embedded code paths read.  `instrument_type` carries the Python class
tag (`"loan"`, `"deposit"`, `"off_balance"`, ...). -/
structure Instr where
  instrument_id : String
  instrument_type : String
  amount : ℚ
  currency : String
  start_date : Int := 0
  as_of_date : Int := 0
  interest_rate : Option ℚ := none
  maturity_date : Option Int := none
  counterparty_type : Option String := none
  repricing_date : Option Int := none
  repayment_schedule : Option (List (Int × ℚ)) := none
  is_demand_deposit : Bool := false
  core_portion : Option ℚ := none
  avg_life_years : Option ℚ := none
  withdrawal_rates : Option (List (String × ℚ)) := none
  available_amount : Option ℚ := none
  utilized_amount : Option ℚ := none
  deriving DecidableEq, Repr

/-- A row of the `liquidity_gaps` table. -/
structure LiqRow where
  currency : String
  bucket : String
  gap : ℚ
  deriving DecidableEq, Repr

/-- A row of the `cumulative_gaps` table. -/
structure CumRow where
  currency : String
  bucket : String
  gap : ℚ
  cumulative_gap : ℚ
  deriving DecidableEq, Repr

/-- The canonical liquidity bucket iteration order of
`_calculate_cumulative_gaps`. -/
def liquidity_bucket_order : List String :=
  ["overnight", "2-7d", "8-14d", "15-30d", "30-90d", "90-180d", "180-365d",
   "1-2y", "2y+"]

/-- The per-currency inner loop of `_calculate_cumulative_gaps`. -/
def cumulative_rows_for (rows : List LiqRow) (currency : String) :
    List CumRow :=
  (liquidity_bucket_order.foldl
    (fun (st : List CumRow × ℚ) bucket =>
      let gap := ((rows.filter
        (fun r => r.currency == currency && r.bucket == bucket)).map
          (fun r => r.gap)).sum
      let cumulative := st.2 + gap
      (st.1 ++ [⟨currency, bucket, gap, cumulative⟩], cumulative))
    ([], 0)).1

/-- Embedding of `ScenarioCalculator._calculate_cumulative_gaps`. -/
def calculate_cumulative_gaps (rows : List LiqRow) : List CumRow :=
  if rows = [] then []
  else
    ((pyUnique (rows.map (fun r => r.currency))).map
      (cumulative_rows_for rows)).flatten

/-- The `bucket_days_mapping` table of `_calculate_survival_horizon`. -/
def survival_bucket_days : List (String × Int) :=
  [("overnight", 1), ("2-7d", 7), ("8-14d", 14), ("15-30d", 30),
   ("30-90d", 90), ("90-180d", 180), ("180-365d", 365), ("1-2y", 730),
   ("2y+", 1095)]

/-- Embedding of `ScenarioCalculator._calculate_survival_horizon`. -/
def calculate_survival_horizon (cum : List CumRow) : List (String × Int) :=
  if cum = [] then []
  else
    (pyUnique (cum.map (fun r => r.currency))).map (fun currency =>
      let currency_data := cum.filter (fun r => r.currency == currency)
      match currency_data.find? (fun r => decide (r.cumulative_gap < 0)) with
      | some row => (currency, (alookup survival_bucket_days row.bucket).getD 0)
      | none => (currency, 1095))

/-- Embedding of `ScenarioCalculator._assign_to_irr_bucket`. -/
def assign_to_irr_bucket (calculation_date repricing_date : Int) : String :=
  let days_to_repricing := repricing_date - calculation_date
  if days_to_repricing ≤ 30 then "0-1m"
  else if days_to_repricing ≤ 90 then "1-3m"
  else if days_to_repricing ≤ 180 then "3-6m"
  else if days_to_repricing ≤ 365 then "6-12m"
  else if days_to_repricing ≤ 730 then "1-2y"
  else if days_to_repricing ≤ 1095 then "2-3y"
  else if days_to_repricing ≤ 1825 then "3-5y"
  else if days_to_repricing ≤ 2555 then "5-7y"
  else if days_to_repricing ≤ 3650 then "7-10y"
  else "10y+"

/-- Configuration of `CurrencyInterestRateGapCalculator`. -/
structure GapCalc where
  calculation_date : Int
  repricing_buckets : List String
  target_currencies : List String := ["RUB", "USD", "EUR", "CNY"]
  deriving DecidableEq, Repr

/-- Embedding of `CurrencyInterestRateGapCalculator._date_to_bucket`:
negative day differences yield the `None` sentinel. -/
def date_to_bucket (g : GapCalc) (repricing_date : Int) : Option String :=
  let days := repricing_date - g.calculation_date
  if days < 0 then none
  else if days ≤ 30 then some "0-1m"
  else if days ≤ 90 then some "1-3m"
  else if days ≤ 180 then some "3-6m"
  else if days ≤ 365 then some "6-12m"
  else if days ≤ 730 then some "1-2y"
  else if days ≤ 1095 then some "2-3y"
  else if days ≤ 1825 then some "3-5y"
  else if days ≤ 2555 then some "5-7y"
  else if days ≤ 3650 then some "7-10y"
  else some "10y+"

/-- A row of a currency IRR gap table. -/
structure GapRow where
  bucket : String
  rsa : ℚ
  rsl : ℚ
  gap : ℚ
  gap_ratio : ℚ
  cumulative_gap : ℚ
  deriving DecidableEq, Repr

/-- The per-currency output of `calculate_sensitivity`. -/
structure SensResult where
  nii_impact_1y : ℚ
  eve_impact : ℚ
  gap_limits_breached : Bool
  rate_shock_bps : ℚ
  deriving DecidableEq, Repr

/-- The fixed `bucket_durations` midpoint table of `_calculate_eve_impact`
(values written as in the source). -/
def bucket_durations : List (String × ℚ) :=
  [("0-1m", 0.5 / 12), ("1-3m", 2 / 12), ("3-6m", 4.5 / 12),
   ("6-12m", 9 / 12), ("1-2y", 1.5), ("2-3y", 2.5), ("3-5y", 4), ("5-7y", 6),
   ("7-10y", 8.5), ("10y+", 12)]

/-- Embedding of `CurrencyInterestRateGapCalculator._calculate_eve_impact`. -/
def calculate_eve_impact (rows : List GapRow) (rate_shock : ℚ) : ℚ :=
  -(rows.foldl
    (fun acc row =>
      acc + row.gap * ((alookup bucket_durations row.bucket).getD 1) * rate_shock)
    0)

/-- Embedding of the per-table body of
`CurrencyInterestRateGapCalculator.calculate_sensitivity`. -/
def sensitivity_for_table (rows : List GapRow) (rate_shock_bps : ℚ) :
    SensResult :=
  let rate_shock := rate_shock_bps / 10000
  let buckets_1y : List String := ["0-1m", "1-3m", "3-6m", "6-12m"]
  let nii_impact :=
    ((rows.filter (fun r => r.bucket ∈ buckets_1y)).map (fun r => r.gap)).sum
      * rate_shock
  { nii_impact_1y := nii_impact
    eve_impact := calculate_eve_impact rows rate_shock
    gap_limits_breached := rows.any (fun r => decide ((1 : ℚ)/5 < |r.gap_ratio|))
    rate_shock_bps := rate_shock_bps }

/-- Embedding of the `CustomerSegment` enum. -/
inductive CustomerSegment where
  | RETAIL
  | CORPORATE
  | SME
  | GOVERNMENT
  | BANK
  deriving DecidableEq, Repr

/-- Embedding of the `DepositType` enum. -/
inductive DepositType where
  | DEMAND
  | SHORT_TERM
  | MEDIUM_TERM
  | LONG_TERM
  deriving DecidableEq, Repr

/-- Embedding of `ElasticityParameters` (the fields the calculator reads). -/
structure ElasticityParameters where
  base_elasticity : ℚ := 0
  elasticity_ceiling : Option ℚ := none
  elasticity_floor : Option ℚ := none
  threshold_rate_change : Option ℚ := none
  below_threshold_elasticity : Option ℚ := none
  above_threshold_elasticity : Option ℚ := none
  asymmetric : Bool := false
  positive_shock_elasticity : Option ℚ := none
  negative_shock_elasticity : Option ℚ := none
  adjustment_speed : ℚ := 1
  competitive_factor : ℚ := 1
  max_volume_change : Option ℚ := none
  min_remaining_volume : Option ℚ := none
  deriving DecidableEq, Repr

/-- Embedding of `DepositVolumeChange`. -/
structure DepositVolumeChange where
  instrument_id : String
  original_amount : ℚ
  new_amount : ℚ
  volume_change : ℚ
  volume_change_pct : ℚ
  rate_change_bps : ℚ
  elasticity_used : ℚ
  customer_segment : CustomerSegment
  deposit_type : DepositType
  deriving DecidableEq, Repr

/-- The ceiling/floor clipping tail of `_determine_elasticity`: `min` with
the ceiling when set, then `max` with the floor when set. -/
def apply_elasticity_bounds (p : ElasticityParameters) (elasticity : ℚ) : ℚ :=
  let e1 :=
    match p.elasticity_ceiling with
    | some c => min elasticity c
    | none => elasticity
  match p.elasticity_floor with
  | some f => max e1 f
  | none => e1

/-- Embedding of `DepositElasticityCalculator._determine_elasticity`.
Note the source shape: once `asymmetric` is truthy the threshold model is
never consulted, and the threshold branch requires all three parameters
to be truthy (set and nonzero). -/
def determine_elasticity (rate_change_pct : ℚ) (p : ElasticityParameters) :
    ℚ :=
  let elasticity :=
    if p.asymmetric then
      if 0 < rate_change_pct ∧ p.positive_shock_elasticity.isSome then
        p.positive_shock_elasticity.getD 0
      else if rate_change_pct < 0 ∧ p.negative_shock_elasticity.isSome then
        p.negative_shock_elasticity.getD 0
      else p.base_elasticity
    else if truthyQ p.threshold_rate_change
        ∧ truthyQ p.below_threshold_elasticity
        ∧ truthyQ p.above_threshold_elasticity then
      if |rate_change_pct| < p.threshold_rate_change.getD 0 then
        p.below_threshold_elasticity.getD 0
      else p.above_threshold_elasticity.getD 0
    else p.base_elasticity
  apply_elasticity_bounds p elasticity

/-- ASCII lowercasing, modelling `str.lower()` on the inputs the claims
exercise. -/
def pyLower (s : String) : String :=
  String.mk (s.toList.map Char.toLower)

/-- Contiguous-sublist test on character lists. -/
def charsInfix (needle : List Char) : List Char → Bool
  | [] => needle.isEmpty
  | c :: rest => needle.isPrefixOf (c :: rest) || charsInfix needle rest

/-- Substring test, modelling Python's `in` on strings. -/
def strContains (hay needle : String) : Bool :=
  charsInfix needle.toList hay.toList

/-- Embedding of `DepositElasticityCalculator._determine_deposit_type`. -/
def determine_deposit_type (calculation_date : Int) (d : Instr) :
    DepositType :=
  if d.is_demand_deposit then DepositType.DEMAND
  else
    match d.maturity_date with
    | some m =>
      let days_to_maturity := m - calculation_date
      if days_to_maturity ≤ 90 then DepositType.SHORT_TERM
      else if days_to_maturity ≤ 365 then DepositType.MEDIUM_TERM
      else DepositType.LONG_TERM
    | none => DepositType.DEMAND

/-- Embedding of `DepositElasticityCalculator._determine_customer_segment`
with the default mapper.  The attribute always exists on the pydantic
model, so `getattr(deposit, 'counterparty_type', '')` returns the stored
value; when that value is `None` the `.lower()` call raises
`AttributeError`, modelled as `Option.none`.  A set value is lowercased
and matched by substring. -/
def determine_customer_segment (d : Instr) : Option CustomerSegment :=
  match d.counterparty_type with
  | none => none
  | some s =>
    let ctype := pyLower s
    if strContains ctype "retail" || strContains ctype "физ" then
      some CustomerSegment.RETAIL
    else if strContains ctype "corporate" || strContains ctype "юр" then
      some CustomerSegment.CORPORATE
    else if strContains ctype "sme" || strContains ctype "мсб" then
      some CustomerSegment.SME
    else if strContains ctype "gov" || strContains ctype "государ" then
      some CustomerSegment.GOVERNMENT
    else if strContains ctype "bank" || strContains ctype "банк" then
      some CustomerSegment.BANK
    else some CustomerSegment.RETAIL

/-- Embedding of
`DepositElasticityCalculator._calculate_single_deposit_change`.  The
customer segment is computed before the result record is built; when
`counterparty_type` is `None` that computation raises `AttributeError`,
so no record is returned: the error is `Option.none`. -/
def calculate_single_deposit_change (calculation_date : Int) (d : Instr)
    (rate_shock_bps : ℚ) (p : ElasticityParameters) :
    Option DepositVolumeChange :=
  let original_amount := d.amount
  let rate_change_pct := rate_shock_bps / 100
  let elasticity := determine_elasticity rate_change_pct p
  let pct0 := elasticity * rate_change_pct
  let pct1 := pct0 * p.adjustment_speed
  let pct2 := pct1 * p.competitive_factor
  let volume_change_pct :=
    if truthyQ p.max_volume_change then
      max (-(p.max_volume_change.getD 0)) (min (p.max_volume_change.getD 0) pct2)
    else pct2
  let new_amount0 := original_amount * (1 + volume_change_pct)
  let new_amount :=
    if truthyQ p.min_remaining_volume then
      max (original_amount * (p.min_remaining_volume.getD 0)) new_amount0
    else new_amount0
  let volume_change := new_amount - original_amount
  match determine_customer_segment d with
  | none => none
  | some segment =>
    some { instrument_id := d.instrument_id
           original_amount := original_amount
           new_amount := new_amount
           volume_change := volume_change
           volume_change_pct :=
             if 0 < original_amount then volume_change / original_amount else 0
           rate_change_bps := rate_shock_bps
           elasticity_used := elasticity
           customer_segment := segment
           deposit_type := determine_deposit_type calculation_date d }

/-- The dynamically-typed metric values the factor decomposer handles:
numbers, (possibly nested) string-keyed dicts, pandas frames, and `None`. -/
inductive Metric where
  | num (q : ℚ)
  | map (entries : List (String × Metric))
  | frame
  | pynone

/-- `metric_new - metric_old` when `metric_new` is a number: Python raises
`TypeError` (modelled as `Option.none`) unless `metric_old` is a number
too. -/
def pyNumDelta (a : ℚ) : Metric → Option Metric
  | .num b => some (.num (a - b))
  | _ => none

/-- The keys-only-in-old tail of the dict case of `_calculate_delta`:
`val_new` defaults to the number `0`. -/
def delta_old_only (keys : List String) (os : List (String × Metric)) :
    Option (List (String × Metric)) :=
  keys.foldr
    (fun k acc =>
      match pyNumDelta 0 ((alookup os k).getD (.num 0)), acc with
      | some d, some ds => some ((k, d) :: ds)
      | _, _ => none)
    (some [])

mutual

/-- Embedding of `FactorAnalyzer._calculate_delta`.  The union of the two
key sets is iterated new-keys first (Python iterates an unordered set;
key-wise the order is immaterial).  A `TypeError` raised by a number-minus-
non-number step is `Option.none`; Python's `None` result for unhandled
types is `Metric.pynone`. -/
def calculate_delta : Metric → Metric → Option Metric
  | .num a, mold => pyNumDelta a mold
  | .map es, .map os =>
    match delta_entries es os with
    | none => none
    | some newPart =>
      let esKeys := es.map Prod.fst
      let osOnly := (pyUnique (os.map Prod.fst)).filter
        (fun k => decide (k ∉ esKeys))
      match delta_old_only osOnly os with
      | none => none
      | some oldPart => some (.map (newPart ++ oldPart))
  | .frame, _ => some .frame
  | _, _ => some .pynone

/-- The keys-of-new part of the dict case of `_calculate_delta`. -/
def delta_entries :
    List (String × Metric) → List (String × Metric) →
      Option (List (String × Metric))
  | [], _ => some []
  | (k, v) :: rest, os =>
    match calculate_delta v ((alookup os k).getD (.num 0)),
        delta_entries rest os with
    | some d, some ds => some ((k, d) :: ds)
    | _, _ => none

end

/-- Embedding of the constructed `FactorAnalyzer` state. -/
structure FactorAnalyzer where
  base_date : Int
  comparison_date : Int
  days_elapsed : Int
  deriving DecidableEq, Repr

/-- Embedding of `FactorAnalyzer.__init__`: the `ValueError` (the spec's
`InvalidPeriod`) is raised during construction, before any instruments or
metric function are seen, exactly when `days_elapsed ≤ 0`. -/
def mkFactorAnalyzer (base_date comparison_date : Int) :
    Except String FactorAnalyzer :=
  let days_elapsed := comparison_date - base_date
  if days_elapsed ≤ 0 then
    .error "comparison_date must be after base_date"
  else
    .ok { base_date := base_date, comparison_date := comparison_date,
          days_elapsed := days_elapsed }

/-- Embedding of `FactorAnalyzer._age_instruments`: deep copies of the
still-existing base instruments with `as_of_date` moved to the comparison
date (maturity dates untouched). -/
def age_instruments (fa : FactorAnalyzer) (instruments : List Instr)
    (existing_ids : List String) : List Instr :=
  (instruments.filter (fun i => decide (i.instrument_id ∈ existing_ids))).map
    (fun i => { i with as_of_date := fa.comparison_date })

/-- The decomposition fields of the `analyze` result dict. -/
structure AnalysisResult where
  metric_base : Metric
  metric_aged : Metric
  metric_full : Metric
  aging_effect : Option Metric
  new_deals_effect : Option Metric
  total_change : Option Metric
  existing_products_count : Nat
  new_products_count : Nat

/-- Embedding of `FactorAnalyzer.analyze`. -/
def factor_analyze (fa : FactorAnalyzer)
    (base_instruments comparison_instruments : List Instr)
    (metric_calculator : List Instr → Int → Metric) : AnalysisResult :=
  let base_ids : List String := base_instruments.map (fun i => i.instrument_id)
  let comparison_ids : List String :=
    comparison_instruments.map (fun i => i.instrument_id)
  let existing_ids :=
    (pyUnique base_ids).filter (fun x => decide (x ∈ comparison_ids))
  let new_ids :=
    (pyUnique comparison_ids).filter (fun x => decide (x ∉ base_ids))
  let aged_instruments :=
    age_instruments fa base_instruments existing_ids
  let metric_base := metric_calculator base_instruments fa.base_date
  let metric_aged := metric_calculator aged_instruments fa.comparison_date
  let metric_full :=
    metric_calculator comparison_instruments fa.comparison_date
  { metric_base := metric_base
    metric_aged := metric_aged
    metric_full := metric_full
    aging_effect := calculate_delta metric_aged metric_base
    new_deals_effect := calculate_delta metric_full metric_aged
    total_change := calculate_delta metric_full metric_base
    existing_products_count := existing_ids.length
    new_products_count := new_ids.length }

/-
Specification-side definitions.  The definitions below transcribe claim
or spec wording (each doc comment says which); they exist to be compared
against the source-derived definitions above.
-/
/-- The liquidity bucket family asserted by the specification (claim C2):
overnight = 1 day, `2-7d` ≤ 7, `8-14d` ≤ 14, `15-30d` ≤ 30, `30-90d` ≤ 90,
`90-180d` ≤ 180, `180-365d` ≤ 365, `1-2y` ≤ 730, `2y+` beyond, and every
non-positive day difference maps to overnight. -/
def claimLiquidityBucket (days_diff : Int) : String :=
  if days_diff ≤ 1 then "overnight"
  else if days_diff ≤ 7 then "2-7d"
  else if days_diff ≤ 14 then "8-14d"
  else if days_diff ≤ 30 then "15-30d"
  else if days_diff ≤ 90 then "30-90d"
  else if days_diff ≤ 180 then "90-180d"
  else if days_diff ≤ 365 then "180-365d"
  else if days_diff ≤ 730 then "1-2y"
  else "2y+"

/-- The bucket family the source mapper actually uses (amended claim C2):
non-positive day differences map to overnight, then `0-30d` ≤ 30,
`30-90d` ≤ 90, `90-180d` ≤ 180, `180-365d` ≤ 365, `1-2y` ≤ 730, `2y+`
beyond; the caller-supplied bucket list is ignored. -/
def amendedLiquidityBucket (days_diff : Int) : String :=
  if days_diff ≤ 0 then "overnight"
  else if days_diff ≤ 30 then "0-30d"
  else if days_diff ≤ 90 then "30-90d"
  else if days_diff ≤ 180 then "90-180d"
  else if days_diff ≤ 365 then "180-365d"
  else if days_diff ≤ 730 then "1-2y"
  else "2y+"

/-- The bucket-to-midpoint-day table of spec section 4.1, which claim C5
says the survival-horizon calculation uses. -/
def claim_bucket_midpoint_days : List (String × Int) :=
  [("overnight", 1), ("2-7d", 4), ("8-14d", 11), ("15-30d", 22),
   ("30-90d", 60), ("90-180d", 135), ("180-365d", 270), ("1-2y", 548),
   ("2y+", 1095)]

/-- Total signed cash flow of a liquidity gap table at one
(currency, bucket) cell. -/
def gapSum (rows : List LiqRow) (c b : String) : ℚ :=
  ((rows.filter (fun r => r.currency == c && r.bucket == b)).map
    (fun r => r.gap)).sum

/-- Sum of the per-bucket gaps of currency `c` over the prefix of the
bucket list `bs` up to and including bucket `b`. -/
def cumUpToIn (rows : List LiqRow) (c : String) (bs : List String)
    (b : String) : ℚ :=
  (((bs.takeWhile (fun x => !(x == b))) ++ [b]).map (gapSum rows c)).sum

/-- Cumulative gap of a liquidity gap table for currency `c` through
bucket `b` of the canonical order: the sum of the per-bucket gaps from
`overnight` up to and including `b`. -/
def cumUpTo (rows : List LiqRow) (c b : String) : ℚ :=
  cumUpToIn rows c liquidity_bucket_order b

/-- The first bucket, in canonical liquidity-bucket order, whose
cumulative gap is negative. -/
def firstNegativeBucket (rows : List LiqRow) (c : String) : Option String :=
  liquidity_bucket_order.find? (fun b => decide (cumUpTo rows c b < 0))

/-- The survival horizon the amended claim C5 asserts: the day count that
the source's upper-bound table assigns to the first bucket with a
negative cumulative gap, and 1095 when no cumulative gap is negative. -/
def survivalSpecAmended (rows : List LiqRow) (c : String) : Int :=
  match firstNegativeBucket rows c with
  | some b => (alookup survival_bucket_days b).getD 0
  | none => 1095

/-- The survival horizon claim C5 asserts as stated: same selection, but
the day count comes from the midpoint table of spec section 4.1. -/
def survivalSpecClaim (rows : List LiqRow) (c : String) : Int :=
  match firstNegativeBucket rows c with
  | some b => (alookup claim_bucket_midpoint_days b).getD 0
  | none => 1095

/-- The closed form of the per-currency cumulative-gap rows: one row per
bucket of `bs`, carrying the running sum started at `acc`. -/
def cumRowsSpec (rows : List LiqRow) (c : String) :
    List String → ℚ → List CumRow
  | [], _ => []
  | b :: rest, acc =>
    let gap := gapSum rows c b
    ⟨c, b, gap, acc + gap⟩ :: cumRowsSpec rows c rest (acc + gap)

/-- The canonical repricing bucket order (spec section 4.1). -/
def canonical_irr_buckets : List String :=
  ["0-1m", "1-3m", "3-6m", "6-12m", "1-2y", "2-3y", "3-5y", "5-7y", "7-10y",
   "10y+"]

/-- A currency gap table over the canonical repricing buckets with
arbitrary column values, for quantifying over "every currency gap table"
in claim C6. -/
def mkCanonicalGapTable (rsa rsl gap ratio cum : String → ℚ) : List GapRow :=
  canonical_irr_buckets.map (fun b => ⟨b, rsa b, rsl b, gap b, ratio b, cum b⟩)

/-- The elasticity selection rule exactly as claim C7 states it: an
`else if` chain in which an asymmetric parameter set with no matching
sign-specific override falls through to the threshold model, and
"set" means `is not None`. -/
def claimElasticityRule (rate_change_pct : ℚ) (p : ElasticityParameters) :
    ℚ :=
  let e :=
    if p.asymmetric = true ∧ 0 < rate_change_pct
        ∧ p.positive_shock_elasticity.isSome then
      p.positive_shock_elasticity.getD 0
    else if p.asymmetric = true ∧ rate_change_pct < 0
        ∧ p.negative_shock_elasticity.isSome then
      p.negative_shock_elasticity.getD 0
    else if p.threshold_rate_change.isSome
        ∧ p.below_threshold_elasticity.isSome
        ∧ p.above_threshold_elasticity.isSome then
      if |rate_change_pct| < p.threshold_rate_change.getD 0 then
        p.below_threshold_elasticity.getD 0
      else p.above_threshold_elasticity.getD 0
    else p.base_elasticity
  apply_elasticity_bounds p e

/-- The flat-rational lookup used to compare mapping metrics key-wise
with zero defaults: the value of key `k` in a `Metric.map` whose entry is
a number, and `0` everywhere else. -/
def qLookup (m : Metric) (k : String) : ℚ :=
  match m with
  | .map es =>
    match alookup es k with
    | some (.num q) => q
    | _ => 0
  | _ => 0

/-- A mapping metric all of whose values are numbers. -/
def isFlatMap : Metric → Bool
  | .map es => es.all (fun p => match p.2 with | .num _ => true | _ => false)
  | _ => false

/-- The elasticity parameter set of counterexample C7: asymmetric with no
sign-specific overrides, plus a fully-set threshold model. -/
def c7Params : ElasticityParameters :=
  { base_elasticity := -1/2, asymmetric := true,
    threshold_rate_change := some 1,
    below_threshold_elasticity := some (-3/10),
    above_threshold_elasticity := some (-8/10) }

/-- Asymmetric elasticity parameters with both sign overrides set, used to
instantiate the first two branches of the amended claim C7. -/
def c7PosNegParams : ElasticityParameters :=
  { base_elasticity := -1/2, asymmetric := true,
    positive_shock_elasticity := some (-3/10),
    negative_shock_elasticity := some (-7/10) }

/-- Symmetric elasticity parameters with the threshold model fully set,
used to instantiate the threshold branch of the amended claim C7. -/
def c7ThParams : ElasticityParameters :=
  { base_elasticity := -1/2,
    threshold_rate_change := some 1,
    below_threshold_elasticity := some (-3/10),
    above_threshold_elasticity := some (-8/10) }

/-- Elasticity parameters with nothing but a base elasticity set, used to
instantiate the fallback branch of the amended claim C7. -/
def c7BaseParams : ElasticityParameters :=
  { base_elasticity := -1/4 }

/-- Threshold parameters with a zero below-threshold elasticity: set but
falsy, forcing the truthiness reading of the threshold guard in claim
C7. -/
def c7ZeroParams : ElasticityParameters :=
  { base_elasticity := -1/2,
    threshold_rate_change := some 1,
    below_threshold_elasticity := some 0,
    above_threshold_elasticity := some (-8/10) }

/-- A retail term deposit with a set counterparty type, used to
instantiate the volume-change branch of the amended claim C7. -/
def c7deposit : Instr :=
  { instrument_id := "D7", instrument_type := "deposit", amount := 600,
    currency := "RUB", interest_rate := some 0.05,
    maturity_date := some 90, counterparty_type := some "Retail" }

/-- The currency gap calculator configuration used to instantiate the
amended claim C3. -/
def c3gap : GapCalc :=
  { calculation_date := 0, repricing_buckets := canonical_irr_buckets }

theorem alookup_append {κ α : Type} [DecidableEq κ] (l1 l2 : List (κ × α))
    (k : κ) :
    alookup (l1 ++ l2) k =
      match alookup l1 k with
      | some v => some v
      | none => alookup l2 k := by
  induction l1 with
  | nil => simp [alookup]
  | cons p rest ih =>
    by_cases h : p.1 = k
    · simp [alookup, h]
    · simp [alookup, h, ih]

theorem alookup_mem {κ α : Type} [DecidableEq κ] (l : List (κ × α)) (k : κ)
    (v : α) (h : alookup l k = some v) : ∃ p ∈ l, p.1 = k ∧ p.2 = v := by
  induction l with
  | nil => cases h
  | cons p rest ih =>
    unfold alookup at h
    by_cases hk : p.1 = k
    · rw [if_pos hk] at h
      exact ⟨p, List.mem_cons_self p rest, hk, Option.some.inj h⟩
    · rw [if_neg hk] at h
      obtain ⟨q, hq, hq1, hq2⟩ := ih h
      exact ⟨q, List.mem_cons_of_mem p hq, hq1, hq2⟩

theorem alookup_none {κ α : Type} [DecidableEq κ] (l : List (κ × α)) (k : κ) :
    alookup l k = none ↔ k ∉ l.map Prod.fst := by
  induction l with
  | nil => simp [alookup]
  | cons p rest ih =>
    unfold alookup
    by_cases hk : p.1 = k
    · simp [hk]
    · simp [hk, ih]
      intro h
      exact fun heq => hk heq.symm

theorem mem_pyUnique (l : List String) (x : String) :
    x ∈ pyUnique l ↔ x ∈ l := by
  have key : ∀ (acc : List String),
      x ∈ l.foldl (fun acc s => if s ∈ acc then acc else acc ++ [s]) acc ↔
        x ∈ acc ∨ x ∈ l := by
    induction l with
    | nil => intro acc; simp
    | cons a rest ih =>
      intro acc
      simp only [List.foldl_cons]
      by_cases ha : a ∈ acc
      · rw [if_pos ha, ih]
        constructor
        · rintro (h | h)
          · exact Or.inl h
          · exact Or.inr (List.mem_cons_of_mem a h)
        · rintro (h | h)
          · exact Or.inl h
          · rcases List.mem_cons.mp h with rfl | h2
            · exact Or.inl ha
            · exact Or.inr h2
      · rw [if_neg ha, ih]
        constructor
        · rintro (h | h)
          · rcases List.mem_append.mp h with h2 | h2
            · exact Or.inl h2
            · simp at h2
              exact Or.inr (by simp [h2])
          · exact Or.inr (List.mem_cons_of_mem a h)
        · rintro (h | h)
          · exact Or.inl (List.mem_append.mpr (Or.inl h))
          · rcases List.mem_cons.mp h with rfl | h2
            · exact Or.inl (by simp)
            · exact Or.inr h2
  unfold pyUnique
  rw [key []]
  simp

theorem pyUnique_nodup (l : List String) : (pyUnique l).Nodup := by
  have key : ∀ (acc : List String), acc.Nodup →
      (l.foldl (fun acc s => if s ∈ acc then acc else acc ++ [s]) acc).Nodup := by
    induction l with
    | nil => intro acc h; exact h
    | cons a rest ih =>
      intro acc h
      simp only [List.foldl_cons]
      by_cases ha : a ∈ acc
      · rw [if_pos ha]; exact ih acc h
      · rw [if_neg ha]
        apply ih
        simp [List.nodup_append, h, ha]
  exact key [] List.nodup_nil

theorem alookup_map_graph {κ α : Type} [DecidableEq κ] (keys : List κ)
    (g : κ → κ × α) (hg : ∀ k, (g k).1 = k) (k : κ) :
    alookup (keys.map g) k = if k ∈ keys then some (g k).2 else none := by
  induction keys with
  | nil => simp [alookup]
  | cons a rest ih =>
    simp only [List.map_cons]
    have hga : g a = (a, (g a).2) := by
      have heta : ((g a).1, (g a).2) = g a := Prod.mk.eta
      rw [hg a] at heta
      exact heta.symm
    rw [hga]
    unfold alookup
    by_cases ha : a = k
    · subst ha
      simp
    · rw [if_neg ha, ih]
      by_cases hk : k ∈ rest
      · simp [hk, List.mem_cons, Or.inr hk]
      · have hnot : k ∉ a :: rest := by
          intro hc2
          rcases List.mem_cons.mp hc2 with rfl | h2
          · exact ha rfl
          · exact hk h2
        simp [hk, hnot]

theorem find_congr {α : Type} (l : List α) (p q : α → Bool)
    (h : ∀ x ∈ l, p x = q x) : l.find? p = l.find? q := by
  induction l with
  | nil => rfl
  | cons a rest ih =>
    unfold List.find?
    rw [h a (List.mem_cons_self a rest)]
    cases q a
    · exact ih (fun x hx => h x (List.mem_cons_of_mem a hx))
    · rfl

theorem alookup_keymap (keys : List String) (f : String → Metric) (k : String) :
    alookup (keys.map (fun x => (x, f x))) k =
      if k ∈ keys then some (f k) else none := by
  induction keys with
  | nil => simp [alookup]
  | cons a rest ih =>
    simp only [List.map_cons]
    unfold alookup
    by_cases ha : a = k
    · subst ha
      simp
    · rw [if_neg ha, ih]
      by_cases hk : k ∈ rest
      · simp [hk, List.mem_cons, Or.inr hk]
      · have : k ∉ a :: rest := by
          intro hc
          rcases List.mem_cons.mp hc with rfl | h2
          · exact ha rfl
          · exact hk h2
        simp [hk, this]

/-- C2 (corrected), counterexample: one day after the base date the code
assigns the bucket named 0-30d, not overnight as the claim's boundary
table would. -/
theorem C2_counterexample :
    assign_to_bucket 0 1 liquidity_bucket_order = "0-30d" ∧
    claimLiquidityBucket (1 - 0) = "overnight" ∧
    assign_to_bucket 0 1 liquidity_bucket_order ≠ claimLiquidityBucket (1 - 0) := by
  decide

/-- C2 (corrected): for every pair of dates the liquidity bucket mapper
ignores its buckets argument and assigns by the boundaries of the
amended table, in which only non-positive day differences are overnight
and 1..30 days fall in a bucket named 0-30d. -/
theorem C2_amended (b t : Int) (L : List String) :
    assign_to_bucket b t L = amendedLiquidityBucket (t - b) := rfl

/-- C9 (confirmed): the factor decomposer's constructor succeeds exactly
when the comparison date is strictly after the base date, and raises the
invalid-period error exactly when it is not; the error happens at
construction, before any metric is seen. -/
theorem C9_invalid_period (b c : Int) :
    ((∃ fa, mkFactorAnalyzer b c = .ok fa) ↔ b < c)
  ∧ (mkFactorAnalyzer b c = .error "comparison_date must be after base_date"
      ↔ c ≤ b) := by
  unfold mkFactorAnalyzer
  by_cases h : c - b ≤ 0
  · simp only [if_pos h]
    constructor
    · constructor
      · rintro ⟨fa, hfa⟩; cases hfa
      · intro hlt; omega
    · constructor
      · intro; omega
      · intro; trivial
  · simp only [if_neg h]
    constructor
    · constructor
      · intro; omega
      · intro; exact ⟨_, rfl⟩
    · constructor
      · intro hc; cases hc
      · intro hle; omega

/-- C6 (confirmed): over every canonical currency gap table and every
parallel shock of bps basis points, nii_impact_1y is the sum of the gap
column over the four buckets inside one year times bps/10000, and
eve_impact is the negated duration-weighted gap sum times bps/10000 with
the fixed duration midpoints of the source. -/
theorem C6_sensitivity (rsa rsl gap ratio cum : String → ℚ) (bps : ℚ) :
    (sensitivity_for_table (mkCanonicalGapTable rsa rsl gap ratio cum) bps).nii_impact_1y
      = (gap "0-1m" + gap "1-3m" + gap "3-6m" + gap "6-12m") * (bps / 10000)
  ∧ (sensitivity_for_table (mkCanonicalGapTable rsa rsl gap ratio cum) bps).eve_impact
      = -(gap "0-1m" * (1/24) + gap "1-3m" * (1/6) + gap "3-6m" * (3/8)
        + gap "6-12m" * (3/4) + gap "1-2y" * (3/2) + gap "2-3y" * (5/2)
        + gap "3-5y" * 4 + gap "5-7y" * 6 + gap "7-10y" * (17/2)
        + gap "10y+" * 12) * (bps / 10000) := by
  constructor <;>
  · simp +decide only [sensitivity_for_table, mkCanonicalGapTable, canonical_irr_buckets,
      calculate_eve_impact, bucket_durations, alookup, List.map, List.filter,
      List.foldl, List.foldr, List.sum, if_true, if_false, Option.getD]
    ring

/-- The asymmetric positive-shock branch of _determine_elasticity. -/
theorem c7am1 (p : ElasticityParameters) (r v : ℚ)
    (ha : p.asymmetric = true) (hr : 0 < r)
    (hv : p.positive_shock_elasticity = some v) :
    determine_elasticity r p = apply_elasticity_bounds p v := by
  unfold determine_elasticity
  simp [ha, hv, hr]

theorem c7am2 (p : ElasticityParameters) (r v : ℚ)
    (ha : p.asymmetric = true) (hr : r < 0)
    (hv : p.negative_shock_elasticity = some v) :
    determine_elasticity r p = apply_elasticity_bounds p v := by
  unfold determine_elasticity
  simp only [ha, if_true]
  split_ifs with h1 h2
  · exact absurd h1.1 (by linarith)
  · simp [hv]
  · exact absurd ⟨hr, by simp [hv]⟩ h2

theorem c7am3 (p : ElasticityParameters) (r : ℚ) (ha : p.asymmetric = true)
    (hp : 0 < r → p.positive_shock_elasticity = none)
    (hn : r < 0 → p.negative_shock_elasticity = none) :
    determine_elasticity r p = apply_elasticity_bounds p p.base_elasticity := by
  unfold determine_elasticity
  simp only [ha, if_true]
  split_ifs with h1 h2
  · rw [hp h1.1] at h1; simp at h1
  · rw [hn h2.1] at h2; simp at h2
  · rfl

theorem c7am4 (p : ElasticityParameters) (r t bv av : ℚ)
    (ha : p.asymmetric = false)
    (ht : p.threshold_rate_change = some t) (ht0 : t ≠ 0)
    (hb : p.below_threshold_elasticity = some bv) (hb0 : bv ≠ 0)
    (hv : p.above_threshold_elasticity = some av) (hv0 : av ≠ 0) :
    determine_elasticity r p =
      apply_elasticity_bounds p (if |r| < t then bv else av) := by
  unfold determine_elasticity
  simp only [ha, truthyQ, ht, hb, hv]
  simp [ht0, hb0, hv0]

theorem c7am5 (p : ElasticityParameters) (r : ℚ) (ha : p.asymmetric = false)
    (h : ¬(truthyQ p.threshold_rate_change = true
          ∧ truthyQ p.below_threshold_elasticity = true
          ∧ truthyQ p.above_threshold_elasticity = true)) :
    determine_elasticity r p = apply_elasticity_bounds p p.base_elasticity := by
  unfold determine_elasticity
  rw [if_neg (by simp [ha]), if_neg h]

theorem flat_value (os : List (String × Metric))
    (hos : isFlatMap (.map os) = true) (k : String) (m : Metric)
    (h : alookup os k = some m) : ∃ r, m = .num r := by
  obtain ⟨p, hp, -, hp2⟩ := alookup_mem os k m h
  unfold isFlatMap at hos
  have := List.all_eq_true.mp hos p hp
  cases hm : p.2 <;> rw [hm] at this <;> try simp at this
  · rw [← hp2, hm]; exact ⟨_, rfl⟩

theorem oldVal (os : List (String × Metric))
    (hos : isFlatMap (.map os) = true) (q : ℚ) (k : String) :
    calculate_delta (.num q) ((alookup os k).getD (.num 0))
      = some (.num (q - qLookup (.map os) k)) := by
  rcases h : alookup os k with _ | m
  · simp [calculate_delta, pyNumDelta, qLookup, h]
  · obtain ⟨r, rfl⟩ := flat_value os hos k m h
    simp [calculate_delta, pyNumDelta, qLookup, h]

theorem delta_entries_flat (os : List (String × Metric))
    (hos : isFlatMap (.map os) = true) :
    ∀ es : List (String × Metric), isFlatMap (.map es) = true →
    ∃ ds, delta_entries es os = some ds
      ∧ ∀ k, alookup ds k =
          (match alookup es k with
          | some (.num q) => some (Metric.num (q - qLookup (.map os) k))
          | _ => none) := by
  intro es
  induction es with
  | nil =>
    intro _
    exact ⟨[], rfl, fun k => by simp [alookup]⟩
  | cons p rest ih =>
    intro hflat
    have hpnum : ∃ q, p.2 = Metric.num q := by
      unfold isFlatMap at hflat
      have := List.all_eq_true.mp hflat p (List.mem_cons_self p rest)
      cases h : p.2 <;> rw [h] at this <;> try simp at this
      exact ⟨_, rfl⟩
    have hrest : isFlatMap (.map rest) = true := by
      unfold isFlatMap at hflat ⊢
      exact List.all_eq_true.mpr (fun x hx =>
        List.all_eq_true.mp hflat x (List.mem_cons_of_mem p hx))
    obtain ⟨q, hq⟩ := hpnum
    obtain ⟨ds, hds, hlk⟩ := ih hrest
    refine ⟨(p.1, Metric.num (q - qLookup (.map os) p.1)) :: ds, ?_, ?_⟩
    · show delta_entries (p :: rest) os = _
      rw [show (p : String × Metric) = (p.1, p.2) from rfl]
      unfold delta_entries
      rw [hq, oldVal os hos q p.1, hds]
    · intro k
      unfold alookup
      by_cases hk : p.1 = k
      · subst hk
        simp [hq]
      · simp only [if_neg hk, hlk k]

theorem delta_old_only_flat (os : List (String × Metric))
    (hos : isFlatMap (.map os) = true) (keys : List String) :
    delta_old_only keys os =
      some (keys.map (fun k => (k, Metric.num (0 - qLookup (.map os) k)))) := by
  induction keys with
  | nil => rfl
  | cons k rest ih =>
    unfold delta_old_only
    simp only [List.foldr_cons]
    unfold delta_old_only at ih
    rw [ih]
    have : pyNumDelta 0 ((alookup os k).getD (.num 0))
        = some (.num (0 - qLookup (.map os) k)) := by
      have := oldVal os hos 0 k
      unfold calculate_delta at this
      exact this
    rw [this]
    simp

theorem delta_flat (es os : List (String × Metric))
    (hes : isFlatMap (.map es) = true) (hos : isFlatMap (.map os) = true) :
    ∃ d, calculate_delta (.map es) (.map os) = some d
      ∧ ∀ k, qLookup d k = qLookup (.map es) k - qLookup (.map os) k := by
  obtain ⟨ds, hds, hlk⟩ := delta_entries_flat os hos es hes
  unfold calculate_delta
  simp only [hds, delta_old_only_flat os hos]
  refine ⟨_, rfl, ?_⟩
  intro k
  rw [show qLookup
      (.map (ds ++ ((pyUnique (os.map Prod.fst)).filter
        (fun k => decide (k ∉ es.map Prod.fst))).map
          (fun k => (k, Metric.num (0 - qLookup (.map os) k))))) k =
    (match alookup (ds ++ ((pyUnique (os.map Prod.fst)).filter
        (fun k => decide (k ∉ es.map Prod.fst))).map
          (fun k => (k, Metric.num (0 - qLookup (.map os) k)))) k with
      | some (.num q) => q
      | _ => 0) from rfl]
  rw [alookup_append]
  rcases hek : alookup es k with _ | m
  · rw [hlk k, hek]
    rw [alookup_keymap]
    by_cases hk : k ∈ (pyUnique (os.map Prod.fst)).filter
        (fun k => decide (k ∉ es.map Prod.fst))
    · rw [if_pos hk]
      rcases hok : alookup os k with _ | m2
      · simp [qLookup, hek, hok]
      · obtain ⟨r, rfl⟩ := flat_value os hos k m2 hok
        simp [qLookup, hek, hok]
    · rw [if_neg hk]
      have hnotos : alookup os k = none := by
        by_contra hne
        rcases Option.ne_none_iff_exists'.mp hne with ⟨v, hv⟩
        apply hk
        apply List.mem_filter.mpr
        constructor
        · rw [mem_pyUnique]
          obtain ⟨p, hp, hp1, -⟩ := alookup_mem os k v hv
          rw [← hp1]
          exact List.mem_map_of_mem Prod.fst hp
        · simp only [decide_eq_true_eq]
          exact (alookup_none es k).mp hek
      simp [qLookup, hek, hnotos]
  · rw [hlk k, hek]
    obtain ⟨r, rfl⟩ := flat_value es hes k m hek
    simp [qLookup, hek]

theorem flat_is_map (m : Metric) (h : isFlatMap m = true) :
    ∃ es, m = Metric.map es := by
  cases m with
  | num q => simp [isFlatMap] at h
  | map es => exact ⟨es, rfl⟩
  | frame => simp [isFlatMap] at h
  | pynone => simp [isFlatMap] at h

/-- C8 (confirmed): for every pair of portfolios and metric function,
once the factor decomposer is constructed, aging_effect plus
new_deals_effect equals total_change exactly for numeric metrics, and
key-wise with zero defaults for flat mapping metrics. -/
theorem C8_factor_identity (b c : Int) (base comp : List Instr)
    (metric : List Instr → Int → Metric) (fa : FactorAnalyzer)
    (hfa : mkFactorAnalyzer b c = .ok fa) :
    (∀ x y z : ℚ,
        (factor_analyze fa base comp metric).metric_base = .num x →
        (factor_analyze fa base comp metric).metric_aged = .num y →
        (factor_analyze fa base comp metric).metric_full = .num z →
        (factor_analyze fa base comp metric).aging_effect = some (.num (y - x))
        ∧ (factor_analyze fa base comp metric).new_deals_effect
            = some (.num (z - y))
        ∧ (factor_analyze fa base comp metric).total_change
            = some (.num (z - x))
        ∧ (y - x) + (z - y) = z - x)
  ∧ (isFlatMap (factor_analyze fa base comp metric).metric_base = true →
     isFlatMap (factor_analyze fa base comp metric).metric_aged = true →
     isFlatMap (factor_analyze fa base comp metric).metric_full = true →
     ∀ k : String, ∃ ag nd tc : Metric,
        (factor_analyze fa base comp metric).aging_effect = some ag
        ∧ (factor_analyze fa base comp metric).new_deals_effect = some nd
        ∧ (factor_analyze fa base comp metric).total_change = some tc
        ∧ qLookup ag k + qLookup nd k = qLookup tc k) := by
  constructor
  · intro x y z hx hy hz
    unfold factor_analyze at hx hy hz ⊢
    simp only at hx hy hz
    simp only [hx, hy, hz]
    refine ⟨rfl, rfl, rfl, by ring⟩
  · intro h1 h2 h3 k
    unfold factor_analyze at h1 h2 h3 ⊢
    simp only at h1 h2 h3
    obtain ⟨es0, hmb⟩ := flat_is_map _ h1
    obtain ⟨es1, hma⟩ := flat_is_map _ h2
    obtain ⟨es2, hmf⟩ := flat_is_map _ h3
    rw [hmb] at h1
    rw [hma] at h2
    rw [hmf] at h3
    simp only [hmb, hma, hmf]
    obtain ⟨dag, hdag, hdagl⟩ := delta_flat es1 es0 h2 h1
    obtain ⟨dnd, hdnd, hdndl⟩ := delta_flat es2 es1 h3 h2
    obtain ⟨dtc, hdtc, hdtcl⟩ := delta_flat es2 es0 h3 h1
    refine ⟨dag, dnd, dtc, hdag, hdnd, hdtc, ?_⟩
    rw [hdagl k, hdndl k, hdtcl k]
    ring

/-- Witness for C8: the numeric identity applied to the constant metric
5 over empty portfolios with base date 0 and comparison date 1. -/
theorem C8_factor_identity_witness :
    (factor_analyze ⟨0, 1, 1⟩ [] [] (fun _ _ => Metric.num 5)).aging_effect
        = some (Metric.num (5 - 5))
    ∧ (factor_analyze ⟨0, 1, 1⟩ [] [] (fun _ _ => Metric.num 5)).new_deals_effect
        = some (Metric.num (5 - 5))
    ∧ (factor_analyze ⟨0, 1, 1⟩ [] [] (fun _ _ => Metric.num 5)).total_change
        = some (Metric.num (5 - 5))
    ∧ ((5 : ℚ) - 5) + (5 - 5) = 5 - 5 :=
  (C8_factor_identity 0 1 [] [] (fun _ _ => Metric.num 5) ⟨0, 1, 1⟩ rfl).1
    5 5 5 rfl rfl rfl

theorem cum_rows_for_spec (rows : List LiqRow) (c : String) :
    cumulative_rows_for rows c = cumRowsSpec rows c liquidity_bucket_order 0 := by
  have key : ∀ (bs : List String) (pre : List CumRow) (acc : ℚ),
      (bs.foldl
        (fun (st : List CumRow × ℚ) bucket =>
          let gap := ((rows.filter
            (fun r => r.currency == c && r.bucket == bucket)).map
              (fun r => r.gap)).sum
          let cumulative := st.2 + gap
          (st.1 ++ [⟨c, bucket, gap, cumulative⟩], cumulative))
        (pre, acc)).1 = pre ++ cumRowsSpec rows c bs acc := by
    intro bs
    induction bs with
    | nil => intro pre acc; simp [cumRowsSpec]
    | cons b rest ih =>
      intro pre acc
      simp only [List.foldl_cons]
      rw [ih]
      simp [cumRowsSpec, gapSum]
  unfold cumulative_rows_for
  rw [key liquidity_bucket_order [] 0]
  rfl

theorem cumRowsSpec_currency (rows : List LiqRow) (c : String) :
    ∀ (bs : List String) (acc : ℚ) (r : CumRow),
      r ∈ cumRowsSpec rows c bs acc → r.currency = c := by
  intro bs
  induction bs with
  | nil => intro acc r h; cases h
  | cons b rest ih =>
    intro acc r h
    unfold cumRowsSpec at h
    rcases List.mem_cons.mp h with rfl | h2
    · rfl
    · exact ih _ r h2

theorem cum_rows_currency (rows : List LiqRow) (c : String) (r : CumRow)
    (h : r ∈ cumulative_rows_for rows c) : r.currency = c := by
  rw [cum_rows_for_spec] at h
  exact cumRowsSpec_currency rows c _ _ r h

theorem filter_pick (rows : List LiqRow) (c : String) :
    ∀ cs : List String, cs.Nodup → c ∈ cs →
    ((cs.map (fun c2 => cumulative_rows_for rows c2)).flatten).filter
      (fun r => r.currency == c) = cumulative_rows_for rows c := by
  intro cs
  induction cs with
  | nil => intro _ h; cases h
  | cons c0 rest ih =>
    intro hnd hmem
    simp only [List.map_cons, List.flatten_cons, List.filter_append]
    rcases List.mem_cons.mp hmem with rfl | h2
    · have h1 : (cumulative_rows_for rows c).filter (fun r => r.currency == c)
          = cumulative_rows_for rows c := by
        apply List.filter_eq_self.mpr
        intro r hr
        simp [cum_rows_currency rows c r hr]
      have h2 : ((rest.map (fun c2 => cumulative_rows_for rows c2)).flatten).filter
          (fun r => r.currency == c) = [] := by
        apply List.filter_eq_nil_iff.mpr
        intro r hr
        rcases List.mem_flatten.mp hr with ⟨blk, hblk, hrblk⟩
        rcases List.mem_map.mp hblk with ⟨c2, hc2, rfl⟩
        have := cum_rows_currency rows c2 r hrblk
        have hne : c2 ≠ c := by
          rintro rfl
          exact (List.nodup_cons.mp hnd).1 hc2
        simp [this, hne]
      rw [h1, h2, List.append_nil]
    · have h1 : (cumulative_rows_for rows c0).filter (fun r => r.currency == c)
          = [] := by
        apply List.filter_eq_nil_iff.mpr
        intro r hr
        have := cum_rows_currency rows c0 r hr
        have hne : c0 ≠ c := by
          rintro rfl
          exact (List.nodup_cons.mp hnd).1 h2
        simp [this, hne]
      rw [h1, ih (List.nodup_cons.mp hnd).2 h2]
      rfl

theorem cumUpToIn_head (rows : List LiqRow) (c b0 : String)
    (rest : List String) :
    cumUpToIn rows c (b0 :: rest) b0 = gapSum rows c b0 := by
  unfold cumUpToIn
  simp [List.takeWhile]

theorem cumUpToIn_tail (rows : List LiqRow) (c b0 b : String)
    (rest : List String) (hne : b0 ≠ b) :
    cumUpToIn rows c (b0 :: rest) b
      = gapSum rows c b0 + cumUpToIn rows c rest b := by
  unfold cumUpToIn
  have hb : (!(b0 == b)) = true := by
    simp [hne]
  have : (b0 :: rest).takeWhile (fun x => !(x == b))
      = b0 :: rest.takeWhile (fun x => !(x == b)) := by
    simp [List.takeWhile, hb]
  rw [this]
  simp

theorem findneg_spec (rows : List LiqRow) (c : String) :
    ∀ (bs : List String) (acc : ℚ), bs.Nodup →
    Option.map (fun r => r.bucket)
      ((cumRowsSpec rows c bs acc).find?
        (fun r => decide (r.cumulative_gap < 0)))
      = bs.find? (fun b => decide (acc + cumUpToIn rows c bs b < 0)) := by
  intro bs
  induction bs with
  | nil => intro acc _; rfl
  | cons b0 rest ih =>
    intro acc hnd
    unfold cumRowsSpec
    rw [List.find?_cons, List.find?_cons]
    have hhead : (decide ((⟨c, b0, gapSum rows c b0,
        acc + gapSum rows c b0⟩ : CumRow).cumulative_gap < 0))
        = decide (acc + cumUpToIn rows c (b0 :: rest) b0 < 0) := by
      rw [cumUpToIn_head]
    rw [hhead]
    cases hcond : decide (acc + cumUpToIn rows c (b0 :: rest) b0 < 0) with
    | true => rfl
    | false =>
      rw [ih (acc + gapSum rows c b0) (List.nodup_cons.mp hnd).2]
      apply find_congr
      intro b hb
      have hne : b0 ≠ b := by
        rintro rfl
        exact (List.nodup_cons.mp hnd).1 hb
      rw [cumUpToIn_tail rows c b0 b rest hne]
      have : acc + (gapSum rows c b0 + cumUpToIn rows c rest b)
          = acc + gapSum rows c b0 + cumUpToIn rows c rest b := by ring
      rw [this]

/-- C5 (corrected): for every liquidity-gap table and every currency
entry of the survival-horizon dict computed from it, the reported day
count is the one the source's bucket upper-bound table assigns to the
first canonical liquidity bucket whose cumulative gap is negative, and
1095 when none is negative: the day counts are bucket upper bounds, not
the section 4.1 midpoints the claim names.  (The contribution path never
reaches this computation on real portfolios: aggregation raises TypeError
first, see the C1 record.) -/
theorem C5_amended (rows : List LiqRow) (c : String) (h : Int)
    (hl : alookup (calculate_survival_horizon (calculate_cumulative_gaps rows))
        c = some h) :
    h = survivalSpecAmended rows c := by
  by_cases hrows : rows = []
  · rw [hrows] at hl
    simp [calculate_cumulative_gaps, calculate_survival_horizon, alookup] at hl
  unfold calculate_cumulative_gaps at hl
  rw [if_neg hrows] at hl
  set cum := ((pyUnique (rows.map (fun r => r.currency))).map
    (cumulative_rows_for rows)).flatten with hcum
  unfold calculate_survival_horizon at hl
  by_cases hc : cum = []
  · rw [if_pos hc] at hl
    cases hl
  rw [if_neg hc] at hl
  rw [alookup_map_graph] at hl
  · by_cases hmem : c ∈ pyUnique (cum.map (fun r => r.currency))
    · rw [if_pos hmem] at hl
      have hcs : c ∈ pyUnique (rows.map (fun r => r.currency)) := by
        rw [mem_pyUnique] at hmem ⊢
        rcases List.mem_map.mp hmem with ⟨r, hr, rfl⟩
        rcases List.mem_flatten.mp hr with ⟨blk, hblk, hrblk⟩
        rcases List.mem_map.mp hblk with ⟨c2, hc2, rfl⟩
        rw [cum_rows_currency rows c2 r hrblk]
        rw [← mem_pyUnique]
        exact hc2
      have hfilter : cum.filter (fun r => r.currency == c)
          = cumulative_rows_for rows c := by
        rw [hcum]
        exact filter_pick rows c _ (pyUnique_nodup _) hcs
      simp only [hfilter] at hl
      have hfind := findneg_spec rows c liquidity_bucket_order 0
        (by decide)
      rw [← cum_rows_for_spec] at hfind
      have hfind2 : liquidity_bucket_order.find?
          (fun b => decide (0 + cumUpToIn rows c liquidity_bucket_order b < 0))
          = firstNegativeBucket rows c := by
        unfold firstNegativeBucket
        apply find_congr
        intro b _
        unfold cumUpTo
        rw [zero_add]
      rw [hfind2] at hfind
      unfold survivalSpecAmended
      rcases hfo : (cumulative_rows_for rows c).find?
          (fun r => decide (r.cumulative_gap < 0)) with _ | row
      · rw [hfo] at hfind
        simp only [Option.map_none'] at hfind
        simp only [hfo] at hl
        rw [← hfind]
        exact (Option.some.inj hl).symm
      · rw [hfo] at hfind
        simp only [Option.map_some'] at hfind
        simp only [hfo] at hl
        rw [← hfind]
        exact (Option.some.inj hl).symm
    · rw [if_neg hmem] at hl
      cases hl
  · intro k
    rcases hf : (cum.filter (fun r => r.currency == k)).find?
        (fun r => decide (r.cumulative_gap < 0)) with _ | row <;> simp [hf]

/-- C3 (corrected): the currency gap calculator's date_to_bucket returns
the None sentinel for negative day differences, but the scenario
calculator's assign_to_irr_bucket sends every repricing date before the
calculation date to the regular 0-1m bucket: no do-not-aggregate
sentinel exists on that path. -/
theorem C3_amended :
    (∀ (g : GapCalc) (rd : Int), rd - g.calculation_date < 0 →
        date_to_bucket g rd = none)
    ∧ (∀ (cdate rd : Int), rd < cdate →
        assign_to_irr_bucket cdate rd = "0-1m") := by
  constructor
  · intro g rd h
    unfold date_to_bucket
    simp only [if_pos h]
  · intro cdate rd h
    unfold assign_to_irr_bucket
    simp only [if_pos (by omega : rd - cdate ≤ 30)]

/-- C3 (corrected), counterexample: at a repricing date 10 days before
calculation date 0 the scenario calculator's bucket mapper yields the
regular bucket 0-1m, one of the ten canonical repricing buckets, not a
sentinel, although the currency gap calculator's mapper does yield its
None sentinel at the same input. -/
theorem C3_counterexample :
    date_to_bucket c3gap (-10) = none
    ∧ assign_to_irr_bucket 0 (-10) = "0-1m"
    ∧ "0-1m" ∈ canonical_irr_buckets := by
  decide

/-- Witness for C3: both halves of the amended claim applied at the
concrete configuration c3gap, repricing date -10 and calculation
date 0. -/
theorem C3_amended_witness :
    date_to_bucket c3gap (-10) = none
    ∧ assign_to_irr_bucket 0 (-10) = "0-1m" :=
  ⟨C3_amended.1 c3gap (-10) (by norm_num [c3gap]),
   C3_amended.2 0 (-10) (by norm_num)⟩

/-- With no volume caps and a set counterparty type, the single-deposit
change record exists and carries the claimed new amount and the chosen
elasticity. -/
theorem c7am6 (cd : Int) (d : Instr) (bps : ℚ) (p : ElasticityParameters)
    (seg : CustomerSegment)
    (hm : p.max_volume_change = none) (hr : p.min_remaining_volume = none)
    (hs : determine_customer_segment d = some seg) :
    ∃ r, calculate_single_deposit_change cd d bps p = some r
      ∧ r.new_amount = d.amount * (1 + determine_elasticity (bps / 100) p
          * (bps / 100) * p.adjustment_speed * p.competitive_factor)
      ∧ r.elasticity_used = determine_elasticity (bps / 100) p := by
  unfold calculate_single_deposit_change
  simp only [hm, hr, truthyQ, Bool.false_eq_true, if_false, hs]
  refine ⟨_, rfl, ?_, rfl⟩
  ring

/-- A deposit with no counterparty type makes the single-deposit change
computation fail: the segment lookup raises AttributeError before the
record is built. -/
theorem c7am7 (cd : Int) (d : Instr) (bps : ℚ) (p : ElasticityParameters)
    (hc : d.counterparty_type = none) :
    calculate_single_deposit_change cd d bps p = none := by
  unfold calculate_single_deposit_change determine_customer_segment
  simp only [hc]

/-- C7 (corrected): the elasticity choice follows the source shape: once
asymmetric is truthy a matching sign override is used and otherwise the
base elasticity, never the threshold model; with asymmetric falsy the
threshold model applies only when all three of its parameters are truthy
(set and nonzero); the result is clipped by the ceiling/floor bounds.
With no volume caps the new amount is amount * (1 + e * shock_pp *
adjustment_speed * competitive_factor) whenever the customer segment is
computable, and the computation fails (AttributeError) when
counterparty_type is None. -/
theorem C7_amended :
    (∀ (p : ElasticityParameters) (r v : ℚ),
        p.asymmetric = true → 0 < r → p.positive_shock_elasticity = some v →
        determine_elasticity r p = apply_elasticity_bounds p v)
  ∧ (∀ (p : ElasticityParameters) (r v : ℚ),
        p.asymmetric = true → r < 0 → p.negative_shock_elasticity = some v →
        determine_elasticity r p = apply_elasticity_bounds p v)
  ∧ (∀ (p : ElasticityParameters) (r : ℚ),
        p.asymmetric = true →
        (0 < r → p.positive_shock_elasticity = none) →
        (r < 0 → p.negative_shock_elasticity = none) →
        determine_elasticity r p = apply_elasticity_bounds p p.base_elasticity)
  ∧ (∀ (p : ElasticityParameters) (r t bv av : ℚ),
        p.asymmetric = false →
        p.threshold_rate_change = some t → t ≠ 0 →
        p.below_threshold_elasticity = some bv → bv ≠ 0 →
        p.above_threshold_elasticity = some av → av ≠ 0 →
        determine_elasticity r p =
          apply_elasticity_bounds p (if |r| < t then bv else av))
  ∧ (∀ (p : ElasticityParameters) (r : ℚ),
        p.asymmetric = false →
        ¬(truthyQ p.threshold_rate_change = true
          ∧ truthyQ p.below_threshold_elasticity = true
          ∧ truthyQ p.above_threshold_elasticity = true) →
        determine_elasticity r p = apply_elasticity_bounds p p.base_elasticity)
  ∧ (∀ (cd : Int) (d : Instr) (bps : ℚ) (p : ElasticityParameters)
        (seg : CustomerSegment),
        p.max_volume_change = none → p.min_remaining_volume = none →
        determine_customer_segment d = some seg →
        ∃ r, calculate_single_deposit_change cd d bps p = some r
          ∧ r.new_amount = d.amount * (1 + determine_elasticity (bps / 100) p
              * (bps / 100) * p.adjustment_speed * p.competitive_factor)
          ∧ r.elasticity_used = determine_elasticity (bps / 100) p)
  ∧ (∀ (cd : Int) (d : Instr) (bps : ℚ) (p : ElasticityParameters),
        d.counterparty_type = none →
        calculate_single_deposit_change cd d bps p = none) :=
  ⟨c7am1, c7am2, c7am3, c7am4, c7am5, c7am6, c7am7⟩

/-- C7 (corrected), counterexample: with asymmetric set, no sign override
and a fully-set threshold model, a +2pp shock uses the base elasticity
while the claim's rule chain would use the above-threshold elasticity;
and with asymmetric falsy and a zero (set but falsy) below-threshold
elasticity the code again uses the base elasticity where the claim's
all-set reading would use the above-threshold one. -/
theorem C7_counterexample :
    (determine_elasticity 2 c7Params = -1/2
      ∧ claimElasticityRule 2 c7Params = -8/10
      ∧ determine_elasticity 2 c7Params ≠ claimElasticityRule 2 c7Params)
    ∧ (determine_elasticity 2 c7ZeroParams = -1/2
      ∧ claimElasticityRule 2 c7ZeroParams = -8/10
      ∧ determine_elasticity 2 c7ZeroParams
          ≠ claimElasticityRule 2 c7ZeroParams) := by
  constructor <;>
  · refine ⟨?_, ?_, ?_⟩ <;>
      norm_num [determine_elasticity, claimElasticityRule,
        apply_elasticity_bounds, c7Params, c7ZeroParams, truthyQ]

/-- Witness for C7: every branch of the amended claim applied at concrete
parameter sets, shocks and deposits. -/
theorem C7_amended_witness :
    determine_elasticity 1 c7PosNegParams
      = apply_elasticity_bounds c7PosNegParams (-3/10)
    ∧ determine_elasticity (-1) c7PosNegParams
      = apply_elasticity_bounds c7PosNegParams (-7/10)
    ∧ determine_elasticity 2 c7Params
      = apply_elasticity_bounds c7Params c7Params.base_elasticity
    ∧ determine_elasticity 2 c7ThParams
      = apply_elasticity_bounds c7ThParams
          (if |(2 : ℚ)| < 1 then -3/10 else -8/10)
    ∧ determine_elasticity 2 c7BaseParams
      = apply_elasticity_bounds c7BaseParams c7BaseParams.base_elasticity
    ∧ (∃ r, calculate_single_deposit_change 0 c7deposit 50 c7ThParams = some r
        ∧ r.new_amount = c7deposit.amount
            * (1 + determine_elasticity (50 / 100) c7ThParams * (50 / 100)
              * c7ThParams.adjustment_speed * c7ThParams.competitive_factor)
        ∧ r.elasticity_used = determine_elasticity (50 / 100) c7ThParams)
    ∧ calculate_single_deposit_change 0
        { instrument_id := "N", instrument_type := "deposit", amount := 1,
          currency := "RUB" } 50 c7ThParams = none :=
  ⟨C7_amended.1 c7PosNegParams 1 (-3/10) rfl (by norm_num) rfl,
   C7_amended.2.1 c7PosNegParams (-1) (-7/10) rfl (by norm_num) rfl,
   C7_amended.2.2.1 c7Params 2 rfl (fun _ => rfl)
     (fun h => absurd h (by norm_num)),
   C7_amended.2.2.2.1 c7ThParams 2 1 (-3/10) (-8/10) rfl rfl (by norm_num)
     rfl (by norm_num) rfl (by norm_num),
   C7_amended.2.2.2.2.1 c7BaseParams 2 rfl (by simp [c7BaseParams, truthyQ]),
   C7_amended.2.2.2.2.2.1 0 c7deposit 50 c7ThParams CustomerSegment.RETAIL
     rfl rfl (by decide),
   C7_amended.2.2.2.2.2.2 0 _ 50 c7ThParams rfl⟩

/-- C5 (corrected), counterexample: a single 600 outflow at 30-90d makes
the survival computation report a 90-day horizon where the claim's
midpoint table says 60. -/
theorem C5_counterexample :
    alookup (calculate_survival_horizon
        (calculate_cumulative_gaps [⟨"RUB", "30-90d", -600⟩])) "RUB"
      = some 90
    ∧ survivalSpecClaim [⟨"RUB", "30-90d", -600⟩] "RUB" = 60
    ∧ (90 : Int) ≠ 60 := by
  refine ⟨?_, ?_, by decide⟩
  · simp +decide [calculate_cumulative_gaps, calculate_survival_horizon,
      cumulative_rows_for, pyUnique, survival_bucket_days,
      liquidity_bucket_order, alookup, List.find?]
  · simp +decide [survivalSpecClaim, firstNegativeBucket, cumUpTo, cumUpToIn,
      gapSum, claim_bucket_midpoint_days, liquidity_bucket_order, alookup,
      List.find?]

/-- Witness for C5: the amended claim applied to the one-row gap table of
the counterexample. -/
theorem C5_amended_witness :
    (90 : Int) = survivalSpecAmended [⟨"RUB", "30-90d", -600⟩] "RUB" := by
  apply C5_amended [⟨"RUB", "30-90d", -600⟩] "RUB" 90
  simp +decide [calculate_cumulative_gaps, calculate_survival_horizon,
    cumulative_rows_for, pyUnique, survival_bucket_days,
    liquidity_bucket_order, alookup, List.find?]

end ALM
